import Mathlib

/- Shallow embedding of the integrated agent framework of this repository
   (app/modules/intelligence/agents/integrated_agent_framework.py): the
   workflow state, configuration, the four agent nodes, the error
   classifier, the reflection router, the compiled graph and the execution
   loop, and the response assembly. -/

namespace IAF

/-- Agent roles supported by the framework (class AgentType). -/
inductive AgentType where
  | code
  | research
  | planning
  | reflection
  deriving DecidableEq

/-- One raw tool call dictionary inside a history entry; every field is
optional because the source reads them through tc.get with defaults. -/
structure ToolCall where
  id : Option String
  event_type : Option String
  name : Option String
  response : Option String
  details : Option (List (String × String))
  deriving DecidableEq

/-- One entry of state.results: text content plus a citation list. -/
structure ResultEntry where
  content : String
  citations : List String
  deriving DecidableEq

/-- One entry of state.history: agent name, result, tool calls. -/
structure HistoryEntry where
  agent : String
  result : ResultEntry
  tool_calls : List ToolCall
  deriving DecidableEq

/-- Modelled from the spec: the context dictionary built by run and
run_stream from a request context (chat_agent.py is not among the
sources); fields follow section 6 of the spec and the literal dictionary
built in run. -/
structure CtxData where
  project_id : String
  agent_id : String
  history : List String
  node_ids : List String
  additional_context : String
  deriving DecidableEq

/-- State object for tracking agent execution (class AgentState). -/
structure AgentState where
  query : String
  context : CtxData
  results : List ResultEntry
  errors : List String
  remaining_steps : Int
  current_agent : String
  history : List HistoryEntry
  deriving DecidableEq

/-- Configuration for the integrated agent framework (class IntegratedAgentConfig). -/
structure IntegratedAgentConfig where
  max_iterations : Int
  agent_types : List AgentType
  reflection_enabled : Bool
  fault_tolerance_level : Int
  tools : List String
  deriving DecidableEq

/-- Modelled from the spec: the request context at the run boundary
(chat_agent.ChatContext is not among the sources); fields follow section 6. -/
structure ChatContext where
  query : String
  project_id : String
  curr_agent_id : String
  history : List String
  node_ids : Option (List String)
  additional_context : String
  deriving DecidableEq

/-- Modelled from the spec: one externally visible tool call record
(chat_agent.ToolCallResponse is not among the sources); fields follow the
keyword arguments used in extract_tool_calls. -/
structure ToolCallResponse where
  call_id : String
  event_type : String
  tool_name : String
  tool_response : String
  tool_call_details : List (String × String)
  deriving DecidableEq

/-- Modelled from the spec: the response shape returned at the run boundary
(chat_agent.ChatAgentResponse is not among the sources); fields follow the
keyword arguments used in run. -/
structure ChatAgentResponse where
  response : String
  tool_calls : List ToolCallResponse
  citations : List String
  deriving DecidableEq

/-- Boolean check that the first character list is an initial segment of the second. -/
def leadMatch : List Char → List Char → Bool
  | [], _ => true
  | _ :: _, [] => false
  | a :: as, b :: bs => a == b && leadMatch as bs

/-- Boolean check that pat occurs as a contiguous segment of the list, as the
Python operator in does on strings. -/
def subMatch (pat : List Char) : List Char → Bool
  | [] => leadMatch pat []
  | c :: rest => leadMatch pat (c :: rest) || subMatch pat rest

/-- Keyword containment, the source expression kw in error.lower(); the
lowercasing is rendered per character on the character list of the string. -/
def kwIn (kw err : String) : Bool := subMatch kw.data (err.data.map Char.toLower)

/-- Code related keyword vocabulary of classify_error. -/
def codeKeywords : List String := ["code", "syntax", "runtime", "exception"]

/-- Research related keyword vocabulary of classify_error. -/
def researchKeywords : List String := ["research", "information", "data"]

/-- Planning related keyword vocabulary of classify_error. -/
def planningKeywords : List String := ["plan", "strategy", "approach"]

/-- Classify the type of error (method classify_error of BaseIntegratedAgent). -/
def classify_error (error : String) : String :=
  if codeKeywords.any (fun kw => kwIn kw error) then "code"
  else if researchKeywords.any (fun kw => kwIn kw error) then "research"
  else if planningKeywords.any (fun kw => kwIn kw error) then "planning"
  else "code"

/-- Route to the next agent after reflection (method reflection_router of
BaseIntegratedAgent); the source reads errors[-1] under a non-emptiness
guard, rendered here as getLastD. -/
def reflection_router (cfg : IntegratedAgentConfig) (state : AgentState) : String :=
  if state.remaining_steps ≤ 0 then "end"
  else if state.errors ≠ [] then
    let error_type := classify_error (state.errors.getLastD (""))
    if error_type = "code" ∧ AgentType.code ∈ cfg.agent_types then "code"
    else if error_type = "research" ∧ AgentType.research ∈ cfg.agent_types then "research"
    else if error_type = "planning" ∧ AgentType.planning ∈ cfg.agent_types then "planning"
    else "end"
  else "end"

/-- Process the state with the code agent (DefaultIntegratedAgent, method
code_agent_node); the fault argument stands for an exception raised inside
the try block and carries the exception text. -/
def code_agent_node (cfg : IntegratedAgentConfig) (fault : Option String)
    (state : AgentState) : AgentState :=
  let s0 := { state with current_agent := "code_agent" }
  match fault with
  | none =>
      let result : ResultEntry :=
        { content := "Code agent processed query: " ++ s0.query, citations := [] }
      { s0 with
        results := s0.results ++ [result],
        history := s0.history ++ [{ agent := "code_agent", result := result, tool_calls := [] }],
        remaining_steps := s0.remaining_steps - 1 }
  | some e =>
      let s1 := { s0 with errors := s0.errors ++ ["Error in code agent: " ++ e] }
      if 2 ≤ cfg.fault_tolerance_level then
        { s1 with results := s1.results ++
            [{ content := "The code agent encountered an error but is attempting to recover.",
               citations := [] }] }
      else s1

/-- Process the state with the research agent (DefaultIntegratedAgent, method
research_agent_node). -/
def research_agent_node (cfg : IntegratedAgentConfig) (fault : Option String)
    (state : AgentState) : AgentState :=
  let s0 := { state with current_agent := "research_agent" }
  match fault with
  | none =>
      let result : ResultEntry :=
        { content := "Research agent processed query: " ++ s0.query,
          citations := ["research_source_1", "research_source_2"] }
      { s0 with
        results := s0.results ++ [result],
        history := s0.history ++ [{ agent := "research_agent", result := result, tool_calls := [] }],
        remaining_steps := s0.remaining_steps - 1 }
  | some e =>
      let s1 := { s0 with errors := s0.errors ++ ["Error in research agent: " ++ e] }
      if 2 ≤ cfg.fault_tolerance_level then
        { s1 with results := s1.results ++
            [{ content := "The research agent encountered an error but is attempting to recover.",
               citations := [] }] }
      else s1

/-- Process the state with the planning agent (DefaultIntegratedAgent, method
planning_agent_node). -/
def planning_agent_node (cfg : IntegratedAgentConfig) (fault : Option String)
    (state : AgentState) : AgentState :=
  let s0 := { state with current_agent := "planning_agent" }
  match fault with
  | none =>
      let result : ResultEntry :=
        { content := "Planning agent processed query: " ++ s0.query, citations := [] }
      { s0 with
        results := s0.results ++ [result],
        history := s0.history ++ [{ agent := "planning_agent", result := result, tool_calls := [] }],
        remaining_steps := s0.remaining_steps - 1 }
  | some e =>
      let s1 := { s0 with errors := s0.errors ++ ["Error in planning agent: " ++ e] }
      if 2 ≤ cfg.fault_tolerance_level then
        { s1 with results := s1.results ++
            [{ content := "The planning agent encountered an error but is attempting to recover.",
               citations := [] }] }
      else s1

/-- Process the state with the reflection agent (DefaultIntegratedAgent, method
reflection_agent_node); its except branch records the error and nothing else. -/
def reflection_agent_node (_cfg : IntegratedAgentConfig) (fault : Option String)
    (state : AgentState) : AgentState :=
  let s0 := { state with current_agent := "reflection_agent" }
  match fault with
  | none =>
      let result : ResultEntry :=
        if s0.errors ≠ [] then
          { content := "Reflection agent identified issues: " ++ s0.errors.getLastD (""),
            citations := [] }
        else
          { content := "Reflection agent reviewed the results and found them satisfactory.",
            citations := [] }
      { s0 with
        results := s0.results ++ [result],
        history := s0.history ++ [{ agent := "reflection_agent", result := result, tool_calls := [] }],
        remaining_steps := s0.remaining_steps - 1 }
  | some e =>
      { s0 with errors := s0.errors ++ ["Error in reflection agent: " ++ e] }

/-- Entry point selection in build_workflow: planning if enabled, else
research if enabled, else the code node name. -/
def entryPoint (cfg : IntegratedAgentConfig) : String :=
  if AgentType.planning ∈ cfg.agent_types then "planning_agent"
  else if AgentType.research ∈ cfg.agent_types then "research_agent"
  else "code_agent"

/-- Branch table of the conditional edge out of reflection
(add_workflow_edges): each route string maps to its node when the target
role is enabled and to END (none) otherwise. -/
def conditionalTarget (cfg : IntegratedAgentConfig) (route : String) : Option String :=
  if route = "code" then
    (if AgentType.code ∈ cfg.agent_types then some ("code_agent") else none)
  else if route = "research" then
    (if AgentType.research ∈ cfg.agent_types then some ("research_agent") else none)
  else if route = "planning" then
    (if AgentType.planning ∈ cfg.agent_types then some ("planning_agent") else none)
  else none

/-- Modelled from the spec: the successor of a node in the compiled graph
(the LangGraph StateGraph engine is not among the sources). Unconditional
edges are the ones added in add_workflow_edges; the conditional edge out of
reflection is resolved by reflection_router through the branch table; none
means END, and a node with no outgoing edge ends the run. -/
def nextNode (cfg : IntegratedAgentConfig) (name : String) (state : AgentState) : Option String :=
  if name = "planning_agent" then
    (if AgentType.planning ∈ cfg.agent_types ∧ AgentType.research ∈ cfg.agent_types
     then some ("research_agent") else none)
  else if name = "research_agent" then
    (if AgentType.research ∈ cfg.agent_types ∧ AgentType.code ∈ cfg.agent_types
     then some ("code_agent") else none)
  else if name = "code_agent" then
    (if cfg.reflection_enabled ∧ AgentType.code ∈ cfg.agent_types
     then some ("reflection_agent") else none)
  else if name = "reflection_agent" then
    (if cfg.reflection_enabled then conditionalTarget cfg (reflection_router cfg state) else none)
  else none

/-- Dispatch one node invocation by node name; an unknown name leaves the
state unchanged. -/
def invokeNode (cfg : IntegratedAgentConfig) (name : String) (fault : Option String)
    (state : AgentState) : AgentState :=
  if name = "code_agent" then code_agent_node cfg fault state
  else if name = "research_agent" then research_agent_node cfg fault state
  else if name = "planning_agent" then planning_agent_node cfg fault state
  else if name = "reflection_agent" then reflection_agent_node cfg fault state
  else state

/-- Modelled from the spec: the synchronous engine loop of section 4.4 (the
LangGraph invoke driver is not among the sources). It invokes the current
node, follows the outgoing edge, and returns the state at END; fuel bounds
the recursion and k indexes invocations into the fault sequence. -/
def execRun (cfg : IntegratedAgentConfig) (faults : Nat → Option String) :
    Nat → Nat → String → AgentState → AgentState
  | 0, _, _, state => state
  | fuel + 1, k, name, state =>
      let s2 := invokeNode cfg name (faults k) state
      match nextNode cfg name s2 with
      | none => s2
      | some nm => execRun cfg faults fuel (k + 1) nm s2

/-- Modelled from the spec: the streaming engine loop of section 4.4 (the
LangGraph astream driver is not among the sources); it records the state
snapshot after every node invocation, in invocation order. -/
def execTrace (cfg : IntegratedAgentConfig) (faults : Nat → Option String) :
    Nat → Nat → String → AgentState → List AgentState
  | 0, _, _, _ => []
  | fuel + 1, k, name, state =>
      let s2 := invokeNode cfg name (faults k) state
      match nextNode cfg name s2 with
      | none => [s2]
      | some nm => s2 :: execTrace cfg faults fuel (k + 1) nm s2

/-- Number of node invocations the engine loop performs. -/
def execCount (cfg : IntegratedAgentConfig) (faults : Nat → Option String) :
    Nat → Nat → String → AgentState → Nat
  | 0, _, _, _ => 0
  | fuel + 1, k, name, state =>
      let s2 := invokeNode cfg name (faults k) state
      match nextNode cfg name s2 with
      | none => 1
      | some nm => 1 + execCount cfg faults fuel (k + 1) nm s2

/-- Names of the nodes the engine loop invokes, in invocation order. -/
def execNames (cfg : IntegratedAgentConfig) (faults : Nat → Option String) :
    Nat → Nat → String → AgentState → List String
  | 0, _, _, _ => []
  | fuel + 1, k, name, state =>
      let s2 := invokeNode cfg name (faults k) state
      match nextNode cfg name s2 with
      | none => [name]
      | some nm => name :: execNames cfg faults fuel (k + 1) nm s2

/-- Initial state built by run and run_stream from the request context. -/
def initState (cfg : IntegratedAgentConfig) (ctx : ChatContext) : AgentState :=
  { query := ctx.query,
    context := { project_id := ctx.project_id, agent_id := ctx.curr_agent_id,
                 history := ctx.history, node_ids := ctx.node_ids.getD [],
                 additional_context := ctx.additional_context },
    results := [], errors := [], remaining_steps := cfg.max_iterations,
    current_agent := "", history := [] }

/-- Format the workflow result into a response string (method
format_response): the fixed message on an empty result list, otherwise the
non empty contents joined by a blank line. -/
def format_response (results : List ResultEntry) : String :=
  if results = [] then "No results were produced by the agent."
  else
    let parts := results.foldl (fun acc r => if r.content ≠ "" then acc ++ [r.content] else acc) []
    String.intercalate ("\n\n") parts

/-- Convert one raw tool call dictionary into a ToolCallResponse with the
default values used in extract_tool_calls. -/
def mkToolCallResponse (tc : ToolCall) : ToolCallResponse :=
  { call_id := tc.id.getD ("unknown"),
    event_type := tc.event_type.getD ("call"),
    tool_name := tc.name.getD ("unknown"),
    tool_response := tc.response.getD (""),
    tool_call_details := tc.details.getD [] }

/-- Extract tool calls from the workflow history (method extract_tool_calls);
an entry with an empty tool call list contributes nothing. -/
def extract_tool_calls (history : List HistoryEntry) : List ToolCallResponse :=
  history.foldl
    (fun acc ev => if ev.tool_calls = [] then acc else acc ++ ev.tool_calls.map mkToolCallResponse)
    []

/-- Extract citations from the results (method extract_citations); the source
passes the collected list through a set, so duplicates are removed and the
iteration order is unspecified, rendered here as eraseDups keeping first
occurrences. -/
def extract_citations (results : List ResultEntry) : List String :=
  (results.foldl (fun acc r => if r.citations = [] then acc else acc ++ r.citations) []).eraseDups

/-- Assemble the externally visible response from a state, as run and
run_stream do through the three extraction helpers. -/
def renderResponse (state : AgentState) : ChatAgentResponse :=
  { response := format_response state.results,
    tool_calls := extract_tool_calls state.history,
    citations := extract_citations state.results }

/-- Modelled from the spec: the synchronous run (method run of
BaseIntegratedAgent through LangGraph invoke): build the initial state,
drive the graph to END, render the terminal state. -/
def run (cfg : IntegratedAgentConfig) (faults : Nat → Option String) (fuel : Nat)
    (ctx : ChatContext) : ChatAgentResponse :=
  renderResponse (execRun cfg faults fuel 0 (entryPoint cfg) (initState cfg ctx))

/-- Modelled from the spec: the per invocation state snapshots observed by the
streaming run. -/
def runStreamStates (cfg : IntegratedAgentConfig) (faults : Nat → Option String) (fuel : Nat)
    (ctx : ChatContext) : List AgentState :=
  execTrace cfg faults fuel 0 (entryPoint cfg) (initState cfg ctx)

/-- Modelled from the spec: the streaming run (method run_stream of
BaseIntegratedAgent through LangGraph astream): one rendered element per
node invocation, in invocation order. -/
def run_stream (cfg : IntegratedAgentConfig) (faults : Nat → Option String) (fuel : Nat)
    (ctx : ChatContext) : List ChatAgentResponse :=
  (runStreamStates cfg faults fuel ctx).map renderResponse

/-- A configuration whose entry point names a registered node; with every one
of the three entry roles disabled the source set_entry_point call references
a node that was never added and compile raises, so runs exist only for such
configurations. -/
def validConfig (cfg : IntegratedAgentConfig) : Prop :=
  AgentType.planning ∈ cfg.agent_types ∨ AgentType.research ∈ cfg.agent_types ∨
    AgentType.code ∈ cfg.agent_types

/-- The fault sequence of a run in which every node invocation succeeds. -/
def noFaults : Nat → Option String := fun _ => none

/-- Request context of the scenario in section 8 of the spec. -/
def ctx0 : ChatContext :=
  { query := "build a login page", project_id := "p1", curr_agent_id := "a1",
    history := [], node_ids := none, additional_context := "" }

/-- Configuration of the scenario in section 8 of the spec. -/
def cfgScenario : IntegratedAgentConfig :=
  { max_iterations := 5,
    agent_types := [AgentType.planning, AgentType.research, AgentType.code],
    reflection_enabled := true, fault_tolerance_level := 2, tools := [] }

/-- The scenario configuration with a budget smaller than the chain length. -/
def cfgSmallBudget : IntegratedAgentConfig :=
  { cfgScenario with max_iterations := 2 }

/-- A route string names an enabled branch of the conditional edge: the route
is code, research or planning and the matching role is enabled. -/
def routerEnabled (cfg : IntegratedAgentConfig) (route : String) : Prop :=
  (route = "code" ∧ AgentType.code ∈ cfg.agent_types) ∨
  (route = "research" ∧ AgentType.research ∈ cfg.agent_types) ∨
  (route = "planning" ∧ AgentType.planning ∈ cfg.agent_types)

instance (cfg : IntegratedAgentConfig) (route : String) : Decidable (routerEnabled cfg route) := by
  unfold routerEnabled
  infer_instance

/-- Every history entry of the state carries an empty tool call list. -/
def histClean (s : AgentState) : Prop :=
  ∀ h ∈ s.history, h.tool_calls = ([] : List ToolCall)

/- Helper lemmas. -/

theorem code_agent_node_frame (cfg : IntegratedAgentConfig) (fault : Option String)
    (s : AgentState) :
    (code_agent_node cfg fault s).query = s.query ∧
    (code_agent_node cfg fault s).context = s.context := by
  cases fault with
  | none => exact ⟨rfl, rfl⟩
  | some e =>
      by_cases hft : 2 ≤ cfg.fault_tolerance_level <;>
        simp [code_agent_node, hft]

theorem research_agent_node_frame (cfg : IntegratedAgentConfig) (fault : Option String)
    (s : AgentState) :
    (research_agent_node cfg fault s).query = s.query ∧
    (research_agent_node cfg fault s).context = s.context := by
  cases fault with
  | none => exact ⟨rfl, rfl⟩
  | some e =>
      by_cases hft : 2 ≤ cfg.fault_tolerance_level <;>
        simp [research_agent_node, hft]

theorem planning_agent_node_frame (cfg : IntegratedAgentConfig) (fault : Option String)
    (s : AgentState) :
    (planning_agent_node cfg fault s).query = s.query ∧
    (planning_agent_node cfg fault s).context = s.context := by
  cases fault with
  | none => exact ⟨rfl, rfl⟩
  | some e =>
      by_cases hft : 2 ≤ cfg.fault_tolerance_level <;>
        simp [planning_agent_node, hft]

theorem reflection_agent_node_frame (cfg : IntegratedAgentConfig) (fault : Option String)
    (s : AgentState) :
    (reflection_agent_node cfg fault s).query = s.query ∧
    (reflection_agent_node cfg fault s).context = s.context := by
  unfold reflection_agent_node
  cases fault with
  | none => exact ⟨rfl, rfl⟩
  | some e => exact ⟨rfl, rfl⟩

theorem classify_error_cases (e : String) :
    classify_error e = "code" ∨ classify_error e = "research" ∨ classify_error e = "planning" := by
  unfold classify_error
  repeat' split
  · exact Or.inl rfl
  · exact Or.inr (Or.inl rfl)
  · exact Or.inr (Or.inr rfl)
  · exact Or.inl rfl

theorem foldl_nonempty_filter : ∀ (l : List ResultEntry) (acc : List String),
    l.foldl (fun a r => if r.content ≠ "" then a ++ [r.content] else a) acc
      = acc ++ (l.map ResultEntry.content).filter (fun c => c ≠ "") := by
  intro l
  induction l with
  | nil => intro acc; simp
  | cons r t ih =>
      intro acc
      by_cases h : r.content = ""
      · rw [List.foldl_cons, if_neg (by simp [h]), List.map_cons, List.filter_cons,
            if_neg (by simp [h])]
        exact ih acc
      · rw [List.foldl_cons, if_pos h, List.map_cons, List.filter_cons,
            if_pos (by simp [h]), ih (acc ++ [r.content]), List.append_assoc]
        rfl

end IAF

namespace IAF

/-- C5: the error classifier is a pure, deterministic, total function on
strings (it is a Lean function, hence total and deterministic): it matches
the code vocabulary first, then the research vocabulary, then the planning
vocabulary, the first matching vocabulary winning, and returns code when no
keyword matches; the four example strings of the spec classify as stated. -/
theorem c5_classify_error_spec :
    (∀ e : String,
      (codeKeywords.any (fun kw => kwIn kw e) = true → classify_error e = "code") ∧
      (codeKeywords.any (fun kw => kwIn kw e) = false →
        researchKeywords.any (fun kw => kwIn kw e) = true → classify_error e = "research") ∧
      (codeKeywords.any (fun kw => kwIn kw e) = false →
        researchKeywords.any (fun kw => kwIn kw e) = false →
        planningKeywords.any (fun kw => kwIn kw e) = true → classify_error e = "planning") ∧
      (codeKeywords.any (fun kw => kwIn kw e) = false →
        researchKeywords.any (fun kw => kwIn kw e) = false →
        planningKeywords.any (fun kw => kwIn kw e) = false → classify_error e = "code")) ∧
    classify_error ("a syntax error occurred") = "code" ∧
    classify_error ("missing information") = "research" ∧
    classify_error ("wrong strategy") = "planning" ∧
    classify_error ("xyz") = "code" := by
  refine ⟨fun e => ⟨?_, ?_, ?_, ?_⟩, by decide, by decide, by decide, by decide⟩
  · intro h1
    simp [classify_error, h1]
  · intro h1 h2
    simp [classify_error, h1, h2]
  · intro h1 h2 h3
    simp [classify_error, h1, h2, h3]
  · intro h1 h2 h3
    simp [classify_error, h1, h2, h3]

/-- Witness for C5 at a concrete input: the string data missing matches no
code keyword, matches the research vocabulary, and classifies as research. -/
theorem c5_witness : classify_error ("data missing") = "research" :=
  ((c5_classify_error_spec.1 ("data missing")).2.1) (by decide) (by decide)

/-- C7: the assembled response text equals the concatenation, in result
order, of every non empty content field of the results joined with a blank
line separator, and on an empty result list it is the fixed no results
message. -/
theorem c7_format_response_spec (results : List ResultEntry) :
    format_response results =
      (if results = [] then "No results were produced by the agent."
       else String.intercalate ("\n\n")
         ((results.map ResultEntry.content).filter (fun c => c ≠ ""))) := by
  unfold format_response
  split
  · rfl
  · have h := foldl_nonempty_filter results []
    simp only [List.nil_append] at h
    rw [h]

theorem execRun_succ (cfg : IntegratedAgentConfig) (faults : Nat → Option String)
    (n k : Nat) (name : String) (s : AgentState) :
    execRun cfg faults (n + 1) k name s
      = (match nextNode cfg name (invokeNode cfg name (faults k) s) with
         | none => invokeNode cfg name (faults k) s
         | some nm => execRun cfg faults n (k + 1) nm (invokeNode cfg name (faults k) s)) := rfl

theorem execTrace_succ (cfg : IntegratedAgentConfig) (faults : Nat → Option String)
    (n k : Nat) (name : String) (s : AgentState) :
    execTrace cfg faults (n + 1) k name s
      = (match nextNode cfg name (invokeNode cfg name (faults k) s) with
         | none => [invokeNode cfg name (faults k) s]
         | some nm =>
             invokeNode cfg name (faults k) s
               :: execTrace cfg faults n (k + 1) nm (invokeNode cfg name (faults k) s)) := rfl

theorem execCount_succ (cfg : IntegratedAgentConfig) (faults : Nat → Option String)
    (n k : Nat) (name : String) (s : AgentState) :
    execCount cfg faults (n + 1) k name s
      = (match nextNode cfg name (invokeNode cfg name (faults k) s) with
         | none => 1
         | some nm => 1 + execCount cfg faults n (k + 1) nm (invokeNode cfg name (faults k) s)) := rfl

theorem invokeNode_none_errors (cfg : IntegratedAgentConfig) (name : String) (s : AgentState) :
    (invokeNode cfg name none s).errors = s.errors := by
  unfold invokeNode
  repeat' split
  all_goals rfl

theorem reflection_router_no_errors (cfg : IntegratedAgentConfig) (s : AgentState)
    (h : s.errors = []) : reflection_router cfg s = "end" := by
  unfold reflection_router
  split
  · rfl
  · rw [if_neg (by simp [h])]

theorem conditionalTarget_end (cfg : IntegratedAgentConfig) :
    conditionalTarget cfg ("end") = none := by
  unfold conditionalTarget
  rw [if_neg (by decide), if_neg (by decide), if_neg (by decide)]

theorem nextNode_reflection_no_errors (cfg : IntegratedAgentConfig) (s : AgentState)
    (h : s.errors = []) : nextNode cfg ("reflection_agent") s = none := by
  unfold nextNode
  rw [if_neg (by decide), if_neg (by decide), if_neg (by decide), if_pos rfl]
  by_cases hr : cfg.reflection_enabled
  · rw [if_pos hr, reflection_router_no_errors cfg s h, conditionalTarget_end]
  · rw [if_neg hr]

theorem nextNode_code_cases (cfg : IntegratedAgentConfig) (s : AgentState) :
    nextNode cfg ("code_agent") s = none ∨
      nextNode cfg ("code_agent") s = some ("reflection_agent") := by
  unfold nextNode
  rw [if_neg (by decide), if_neg (by decide), if_pos rfl]
  split
  · exact Or.inr rfl
  · exact Or.inl rfl

theorem nextNode_research_cases (cfg : IntegratedAgentConfig) (s : AgentState) :
    nextNode cfg ("research_agent") s = none ∨
      nextNode cfg ("research_agent") s = some ("code_agent") := by
  unfold nextNode
  rw [if_neg (by decide), if_pos rfl]
  split
  · exact Or.inr rfl
  · exact Or.inl rfl

theorem nextNode_planning_cases (cfg : IntegratedAgentConfig) (s : AgentState) :
    nextNode cfg ("planning_agent") s = none ∨
      nextNode cfg ("planning_agent") s = some ("research_agent") := by
  unfold nextNode
  rw [if_pos rfl]
  split
  · exact Or.inr rfl
  · exact Or.inl rfl

theorem count_reflection_le (cfg : IntegratedAgentConfig) (fuel k : Nat) (s : AgentState)
    (h : s.errors = []) : execCount cfg noFaults fuel k ("reflection_agent") s ≤ 1 := by
  cases fuel with
  | zero => exact Nat.zero_le 1
  | succ n =>
      rw [execCount_succ]
      have h2 : (invokeNode cfg ("reflection_agent") (noFaults k) s).errors = [] := by
        rw [show noFaults k = none from rfl, invokeNode_none_errors]
        exact h
      rw [nextNode_reflection_no_errors cfg _ h2]

theorem count_code_le (cfg : IntegratedAgentConfig) (fuel k : Nat) (s : AgentState)
    (h : s.errors = []) : execCount cfg noFaults fuel k ("code_agent") s ≤ 2 := by
  cases fuel with
  | zero => exact Nat.zero_le 2
  | succ n =>
      rw [execCount_succ]
      have h2 : (invokeNode cfg ("code_agent") (noFaults k) s).errors = [] := by
        rw [show noFaults k = none from rfl, invokeNode_none_errors]
        exact h
      rcases nextNode_code_cases cfg (invokeNode cfg ("code_agent") (noFaults k) s) with hn | hn <;>
        rw [hn]
      · show (1 : Nat) ≤ 2
        decide
      · show 1 + execCount cfg noFaults n (k + 1) ("reflection_agent")
            (invokeNode cfg ("code_agent") (noFaults k) s) ≤ 2
        have hb := count_reflection_le cfg n (k + 1) _ h2
        omega

theorem count_research_le (cfg : IntegratedAgentConfig) (fuel k : Nat) (s : AgentState)
    (h : s.errors = []) : execCount cfg noFaults fuel k ("research_agent") s ≤ 3 := by
  cases fuel with
  | zero => exact Nat.zero_le 3
  | succ n =>
      rw [execCount_succ]
      have h2 : (invokeNode cfg ("research_agent") (noFaults k) s).errors = [] := by
        rw [show noFaults k = none from rfl, invokeNode_none_errors]
        exact h
      rcases nextNode_research_cases cfg (invokeNode cfg ("research_agent") (noFaults k) s) with
        hn | hn <;> rw [hn]
      · show (1 : Nat) ≤ 3
        decide
      · show 1 + execCount cfg noFaults n (k + 1) ("code_agent")
            (invokeNode cfg ("research_agent") (noFaults k) s) ≤ 3
        have hb := count_code_le cfg n (k + 1) _ h2
        omega

theorem count_planning_le (cfg : IntegratedAgentConfig) (fuel k : Nat) (s : AgentState)
    (h : s.errors = []) : execCount cfg noFaults fuel k ("planning_agent") s ≤ 4 := by
  cases fuel with
  | zero => exact Nat.zero_le 4
  | succ n =>
      rw [execCount_succ]
      have h2 : (invokeNode cfg ("planning_agent") (noFaults k) s).errors = [] := by
        rw [show noFaults k = none from rfl, invokeNode_none_errors]
        exact h
      rcases nextNode_planning_cases cfg (invokeNode cfg ("planning_agent") (noFaults k) s) with
        hn | hn <;> rw [hn]
      · show (1 : Nat) ≤ 4
        decide
      · show 1 + execCount cfg noFaults n (k + 1) ("research_agent")
            (invokeNode cfg ("planning_agent") (noFaults k) s) ≤ 4
        have hb := count_research_le cfg n (k + 1) _ h2
        omega

theorem execTrace_getLastD (cfg : IntegratedAgentConfig) (faults : Nat → Option String) :
    ∀ (fuel k : Nat) (name : String) (s : AgentState),
      (execTrace cfg faults fuel k name s).getLastD s = execRun cfg faults fuel k name s := by
  intro fuel
  induction fuel with
  | zero => intro k name s; rfl
  | succ n ih =>
      intro k name s
      cases hn : nextNode cfg name (invokeNode cfg name (faults k) s) with
      | none =>
          rw [execTrace_succ, execRun_succ, hn]
          rfl
      | some nm =>
          rw [execTrace_succ, execRun_succ, hn]
          show (invokeNode cfg name (faults k) s
              :: execTrace cfg faults n (k + 1) nm (invokeNode cfg name (faults k) s)).getLastD s
            = execRun cfg faults n (k + 1) nm (invokeNode cfg name (faults k) s)
          rw [List.getLastD_cons]
          exact ih (k + 1) nm _

theorem execTrace_length (cfg : IntegratedAgentConfig) (faults : Nat → Option String) :
    ∀ (fuel k : Nat) (name : String) (s : AgentState),
      (execTrace cfg faults fuel k name s).length = execCount cfg faults fuel k name s := by
  intro fuel
  induction fuel with
  | zero => intro k name s; rfl
  | succ n ih =>
      intro k name s
      cases hn : nextNode cfg name (invokeNode cfg name (faults k) s) with
      | none =>
          rw [execTrace_succ, execCount_succ, hn]
          rfl
      | some nm =>
          rw [execTrace_succ, execCount_succ, hn]
          show (invokeNode cfg name (faults k) s
              :: execTrace cfg faults n (k + 1) nm (invokeNode cfg name (faults k) s)).length
            = 1 + execCount cfg faults n (k + 1) nm (invokeNode cfg name (faults k) s)
          rw [List.length_cons, ih (k + 1) nm _]
          omega

theorem getLastD_map {α β : Type} (f : α → β) :
    ∀ (l : List α) (d : α), (l.map f).getLastD (f d) = f (l.getLastD d) := by
  intro l
  induction l with
  | nil => intro d; rfl
  | cons a t ih =>
      intro d
      rw [List.map_cons, List.getLastD_cons, List.getLastD_cons]
      exact ih a

theorem code_agent_node_histClean (cfg : IntegratedAgentConfig) (fault : Option String)
    (s : AgentState) (h : histClean s) : histClean (code_agent_node cfg fault s) := by
  intro x hx
  cases fault with
  | none =>
      simp only [code_agent_node, List.mem_append, List.mem_singleton] at hx
      rcases hx with hx | rfl
      · exact h x hx
      · rfl
  | some e =>
      by_cases hft : 2 ≤ cfg.fault_tolerance_level <;>
        simp only [code_agent_node, hft, if_true, if_false, ite_true, ite_false] at hx <;>
        exact h x hx

theorem research_agent_node_histClean (cfg : IntegratedAgentConfig) (fault : Option String)
    (s : AgentState) (h : histClean s) : histClean (research_agent_node cfg fault s) := by
  intro x hx
  cases fault with
  | none =>
      simp only [research_agent_node, List.mem_append, List.mem_singleton] at hx
      rcases hx with hx | rfl
      · exact h x hx
      · rfl
  | some e =>
      by_cases hft : 2 ≤ cfg.fault_tolerance_level <;>
        simp only [research_agent_node, hft, if_true, if_false, ite_true, ite_false] at hx <;>
        exact h x hx

theorem planning_agent_node_histClean (cfg : IntegratedAgentConfig) (fault : Option String)
    (s : AgentState) (h : histClean s) : histClean (planning_agent_node cfg fault s) := by
  intro x hx
  cases fault with
  | none =>
      simp only [planning_agent_node, List.mem_append, List.mem_singleton] at hx
      rcases hx with hx | rfl
      · exact h x hx
      · rfl
  | some e =>
      by_cases hft : 2 ≤ cfg.fault_tolerance_level <;>
        simp only [planning_agent_node, hft, if_true, if_false, ite_true, ite_false] at hx <;>
        exact h x hx

theorem reflection_agent_node_histClean (cfg : IntegratedAgentConfig) (fault : Option String)
    (s : AgentState) (h : histClean s) : histClean (reflection_agent_node cfg fault s) := by
  intro x hx
  cases fault with
  | none =>
      simp only [reflection_agent_node, List.mem_append, List.mem_singleton] at hx
      rcases hx with hx | rfl
      · exact h x hx
      · rfl
  | some e =>
      simp only [reflection_agent_node] at hx
      exact h x hx

theorem invokeNode_histClean (cfg : IntegratedAgentConfig) (name : String) (fault : Option String)
    (s : AgentState) (h : histClean s) : histClean (invokeNode cfg name fault s) := by
  unfold invokeNode
  repeat' split
  · exact code_agent_node_histClean cfg fault s h
  · exact research_agent_node_histClean cfg fault s h
  · exact planning_agent_node_histClean cfg fault s h
  · exact reflection_agent_node_histClean cfg fault s h
  · exact h

theorem execRun_histClean (cfg : IntegratedAgentConfig) (faults : Nat → Option String) :
    ∀ (fuel k : Nat) (name : String) (s : AgentState),
      histClean s → histClean (execRun cfg faults fuel k name s) := by
  intro fuel
  induction fuel with
  | zero => intro k name s h; exact h
  | succ n ih =>
      intro k name s h
      cases hn : nextNode cfg name (invokeNode cfg name (faults k) s) with
      | none =>
          rw [execRun_succ, hn]
          exact invokeNode_histClean cfg name (faults k) s h
      | some nm =>
          rw [execRun_succ, hn]
          exact ih (k + 1) nm _ (invokeNode_histClean cfg name (faults k) s h)

theorem extract_tool_calls_of_clean :
    ∀ (l : List HistoryEntry), (∀ h ∈ l, h.tool_calls = ([] : List ToolCall)) →
      extract_tool_calls l = [] := by
  have aux : ∀ (l : List HistoryEntry) (acc : List ToolCallResponse),
      (∀ h ∈ l, h.tool_calls = ([] : List ToolCall)) →
        l.foldl (fun acc ev =>
          if ev.tool_calls = [] then acc else acc ++ ev.tool_calls.map mkToolCallResponse) acc
          = acc := by
    intro l
    induction l with
    | nil => intro acc _; rfl
    | cons a t ih =>
        intro acc h
        rw [List.foldl_cons, if_pos (h a (List.mem_cons_self a t))]
        exact ih acc (fun x hx => h x (List.mem_cons_of_mem a hx))
  intro l h
  exact aux l [] h

/-- C8: every node invocation, successful or faulted, of every role leaves
the query and context fields of the state unchanged. -/
theorem c8_nodes_preserve_query_context (cfg : IntegratedAgentConfig) (name : String)
    (fault : Option String) (s : AgentState) :
    (invokeNode cfg name fault s).query = s.query ∧
    (invokeNode cfg name fault s).context = s.context := by
  unfold invokeNode
  repeat' split
  · exact code_agent_node_frame cfg fault s
  · exact research_agent_node_frame cfg fault s
  · exact planning_agent_node_frame cfg fault s
  · exact reflection_agent_node_frame cfg fault s
  · exact ⟨rfl, rfl⟩

end IAF


namespace IAF

/-- C1 counterexample: with planning, research and code enabled, reflection
on and max_iterations = 2, the fault free run performs 4 node invocations
(terminating on its own well below the fuel bound of 10), which exceeds
max_iterations, so the engine does not enforce the claimed ceiling of
max_iterations total node invocations. -/
theorem c1_counterexample :
    execCount cfgSmallBudget noFaults 10 0 (entryPoint cfgSmallBudget)
        (initState cfgSmallBudget ctx0) = 4 ∧
    ¬ ((4 : Int) ≤ cfgSmallBudget.max_iterations) := ⟨rfl, by decide⟩

/-- C1 amended: the iteration budget is consulted only by the reflection
router, so the engine has no independent invocation ceiling; for every
configuration, request and fuel, a run in which no node invocation faults
performs at most 4 node invocations (a single pass over the enabled chain,
the router terminating because errors stays empty), and such a run can
exceed max_iterations whenever max_iterations is smaller than the chain
length. -/
theorem c1_amended_faultfree_run_at_most_four (cfg : IntegratedAgentConfig)
    (ctx : ChatContext) (fuel : Nat) :
    execCount cfg noFaults fuel 0 (entryPoint cfg) (initState cfg ctx) ≤ 4 := by
  have h : (initState cfg ctx).errors = [] := rfl
  unfold entryPoint
  split
  · exact count_planning_le cfg fuel 0 _ h
  · split
    · exact Nat.le_trans (count_research_le cfg fuel 0 _ h) (by decide)
    · exact Nat.le_trans (count_code_le cfg fuel 0 _ h) (by decide)

/-- C2 counterexample: at fault tolerance level 2, a faulted reflection
invocation appends no recovery placeholder to results, while the claim
demands exactly one for every role including reflection. -/
theorem c2_counterexample :
    (2 : Int) ≤ cfgScenario.fault_tolerance_level ∧
    (reflection_agent_node cfgScenario (some ("boom")) (initState cfgScenario ctx0)).results
      = (initState cfgScenario ctx0).results := ⟨by decide, rfl⟩

/-- C2 amended: for a faulted code, research or planning invocation, exactly
one recovery placeholder entry is appended to results when
fault_tolerance_level is at least 2 and none when it is below 2; a faulted
reflection invocation never appends a recovery placeholder, at any fault
tolerance level. -/
theorem c2_amended_recovery_placeholders (cfg : IntegratedAgentConfig) (e : String)
    (s : AgentState) :
    (code_agent_node cfg (some e) s).results
        = s.results ++ (if 2 ≤ cfg.fault_tolerance_level then
            [{ content := "The code agent encountered an error but is attempting to recover.",
               citations := ([] : List String) }] else []) ∧
    (research_agent_node cfg (some e) s).results
        = s.results ++ (if 2 ≤ cfg.fault_tolerance_level then
            [{ content := "The research agent encountered an error but is attempting to recover.",
               citations := ([] : List String) }] else []) ∧
    (planning_agent_node cfg (some e) s).results
        = s.results ++ (if 2 ≤ cfg.fault_tolerance_level then
            [{ content := "The planning agent encountered an error but is attempting to recover.",
               citations := ([] : List String) }] else []) ∧
    (reflection_agent_node cfg (some e) s).results = s.results := by
  by_cases hft : 2 ≤ cfg.fault_tolerance_level <;>
    refine ⟨?_, ?_, ?_, ?_⟩ <;>
    simp [code_agent_node, research_agent_node, planning_agent_node, reflection_agent_node, hft]

/-- C3: for every configuration, fault sequence, fuel and request, the
streaming run yields exactly one element per node invocation: its length
equals the number of node invocations the synchronous run performs, the
state snapshot in the final streamed element equals the terminal state of
the synchronous run, and the final rendered element equals the response
returned by run. -/
theorem c3_run_stream_matches_run (cfg : IntegratedAgentConfig) (faults : Nat → Option String)
    (fuel : Nat) (ctx : ChatContext) :
    (run_stream cfg faults fuel ctx).length
        = execCount cfg faults fuel 0 (entryPoint cfg) (initState cfg ctx) ∧
    (runStreamStates cfg faults fuel ctx).getLastD (initState cfg ctx)
        = execRun cfg faults fuel 0 (entryPoint cfg) (initState cfg ctx) ∧
    (run_stream cfg faults fuel ctx).getLastD (renderResponse (initState cfg ctx))
        = run cfg faults fuel ctx := by
  refine ⟨?_, ?_, ?_⟩
  · simp only [run_stream, runStreamStates, List.length_map]
    exact execTrace_length cfg faults fuel 0 (entryPoint cfg) (initState cfg ctx)
  · simp only [runStreamStates]
    exact execTrace_getLastD cfg faults fuel 0 (entryPoint cfg) (initState cfg ctx)
  · simp only [run_stream, runStreamStates, run]
    rw [getLastD_map renderResponse, execTrace_getLastD]

/-- C10: history entries are appended only by the nodes and always carry an
empty tool call list, so the terminal state of every run satisfies the
invariant and the response returned by run has an empty tool call list for
every configuration, fault sequence, fuel and request. -/
theorem c10_run_tool_calls_empty (cfg : IntegratedAgentConfig) (faults : Nat → Option String)
    (fuel : Nat) (ctx : ChatContext) :
    histClean (execRun cfg faults fuel 0 (entryPoint cfg) (initState cfg ctx)) ∧
    (run cfg faults fuel ctx).tool_calls = [] := by
  have h0 : histClean (initState cfg ctx) := by
    intro x hx
    simp [initState] at hx
  have h1 := execRun_histClean cfg faults fuel 0 (entryPoint cfg) (initState cfg ctx) h0
  exact ⟨h1, extract_tool_calls_of_clean _ h1⟩

end IAF

namespace IAF

/-- C4: the reflection router returns end whenever the remaining budget is
not positive, regardless of error content; otherwise, with a non empty
error list, it classifies the most recent error and returns that role
exactly when the role is enabled in the configuration, and end otherwise;
with no errors it returns end; and every branch of the conditional edge
table that is not END targets an enabled role, disabled targets behaving
as END. -/
theorem c4_reflection_router_policy (cfg : IntegratedAgentConfig) (s : AgentState) :
    (s.remaining_steps ≤ 0 → reflection_router cfg s = "end") ∧
    (0 < s.remaining_steps → s.errors = [] → reflection_router cfg s = "end") ∧
    (0 < s.remaining_steps → s.errors ≠ [] →
      reflection_router cfg s =
        (if routerEnabled cfg (classify_error (s.errors.getLastD (""))) then
          classify_error (s.errors.getLastD ("")) else "end")) ∧
    (∀ route : String, conditionalTarget cfg route ≠ none → routerEnabled cfg route) := by
  refine ⟨?_, ?_, ?_, ?_⟩
  · intro h
    unfold reflection_router
    rw [if_pos h]
  · intro _ he
    exact reflection_router_no_errors cfg s he
  · intro hpos he
    have h0 : ¬ s.remaining_steps ≤ 0 := by omega
    rcases classify_error_cases (s.errors.getLastD ("")) with hc | hc | hc <;>
      rw [List.getLastD_eq_getLast?] at hc
    · by_cases hm : AgentType.code ∈ cfg.agent_types <;>
        simp [reflection_router, routerEnabled, h0, he, hc, hm]
    · by_cases hm : AgentType.research ∈ cfg.agent_types <;>
        simp [reflection_router, routerEnabled, h0, he, hc, hm]
    · by_cases hm : AgentType.planning ∈ cfg.agent_types <;>
        simp [reflection_router, routerEnabled, h0, he, hc, hm]
  · intro route hne
    unfold conditionalTarget at hne
    split at hne
    case isTrue h1 =>
      by_cases hm : AgentType.code ∈ cfg.agent_types
      · exact Or.inl ⟨h1, hm⟩
      · rw [if_neg hm] at hne
        exact absurd rfl hne
    case isFalse h1 =>
      split at hne
      case isTrue h2 =>
        by_cases hm : AgentType.research ∈ cfg.agent_types
        · exact Or.inr (Or.inl ⟨h2, hm⟩)
        · rw [if_neg hm] at hne
          exact absurd rfl hne
      case isFalse h2 =>
        split at hne
        case isTrue h3 =>
          by_cases hm : AgentType.planning ∈ cfg.agent_types
          · exact Or.inr (Or.inr ⟨h3, hm⟩)
          · rw [if_neg hm] at hne
            exact absurd rfl hne
        case isFalse h3 => exact absurd rfl hne

/-- Witness for C4 at a concrete input: with the budget exhausted the router
returns end. -/
theorem c4_witness :
    reflection_router cfgScenario
        { initState cfgScenario ctx0 with remaining_steps := 0 } = "end" :=
  (c4_reflection_router_policy cfgScenario
      { initState cfgScenario ctx0 with remaining_steps := 0 }).1 (by decide)

/-- C6: under the scenario configuration (planning, research and code
enabled, reflection on, max_iterations 5, fault tolerance 2) and the query
build a login page with no faults, the engine invokes exactly planning,
research, code, reflection; the terminal state has no errors and the router
maps it to end; total invocations are 4; results has exactly 4 entries; and
the rendered text is the concatenation of their contents with blank line
separators. -/
theorem c6_scenario_single_pass :
    execNames cfgScenario noFaults 10 0 (entryPoint cfgScenario) (initState cfgScenario ctx0)
      = ["planning_agent", "research_agent", "code_agent", "reflection_agent"] ∧
    execCount cfgScenario noFaults 10 0 (entryPoint cfgScenario) (initState cfgScenario ctx0)
      = 4 ∧
    (execRun cfgScenario noFaults 10 0 (entryPoint cfgScenario)
        (initState cfgScenario ctx0)).errors = [] ∧
    reflection_router cfgScenario
        (execRun cfgScenario noFaults 10 0 (entryPoint cfgScenario) (initState cfgScenario ctx0))
      = "end" ∧
    (execRun cfgScenario noFaults 10 0 (entryPoint cfgScenario)
        (initState cfgScenario ctx0)).results.length = 4 ∧
    (run cfgScenario noFaults 10 ctx0).response
      = String.intercalate ("\n\n")
          (((execRun cfgScenario noFaults 10 0 (entryPoint cfgScenario)
              (initState cfgScenario ctx0)).results).map ResultEntry.content) :=
  ⟨rfl, rfl, rfl, rfl, rfl, rfl⟩

/-- C9 counterexample: a faulted code invocation modifies a field other than
errors and results, namely current_agent, which the node sets to its own
name before the fault is absorbed. -/
theorem c9_counterexample :
    (code_agent_node cfgScenario (some ("boom")) (initState cfgScenario ctx0)).current_agent
      ≠ (initState cfgScenario ctx0).current_agent := by decide

/-- C9 amended: when a node invocation faults, remaining_steps is not
decremented, no history entry is appended, and query and context are
unchanged; the modified fields are exactly errors (one appended message),
current_agent (set to the invoked node name), and, for the non reflection
roles at fault_tolerance_level at least 2, results (one appended recovery
placeholder). -/
theorem c9_amended_fault_frame (cfg : IntegratedAgentConfig) (e : String) (s : AgentState) :
    code_agent_node cfg (some e) s
      = { s with current_agent := "code_agent",
                 errors := s.errors ++ ["Error in code agent: " ++ e],
                 results := s.results ++ (if 2 ≤ cfg.fault_tolerance_level then
                   [{ content := "The code agent encountered an error but is attempting to recover.",
                      citations := [] }] else []) } ∧
    research_agent_node cfg (some e) s
      = { s with current_agent := "research_agent",
                 errors := s.errors ++ ["Error in research agent: " ++ e],
                 results := s.results ++ (if 2 ≤ cfg.fault_tolerance_level then
                   [{ content := "The research agent encountered an error but is attempting to recover.",
                      citations := [] }] else []) } ∧
    planning_agent_node cfg (some e) s
      = { s with current_agent := "planning_agent",
                 errors := s.errors ++ ["Error in planning agent: " ++ e],
                 results := s.results ++ (if 2 ≤ cfg.fault_tolerance_level then
                   [{ content := "The planning agent encountered an error but is attempting to recover.",
                      citations := [] }] else []) } ∧
    reflection_agent_node cfg (some e) s
      = { s with current_agent := "reflection_agent",
                 errors := s.errors ++ ["Error in reflection agent: " ++ e] } := by
  by_cases hft : 2 ≤ cfg.fault_tolerance_level <;>
    refine ⟨?_, ?_, ?_, ?_⟩ <;>
    simp [code_agent_node, research_agent_node, planning_agent_node, reflection_agent_node, hft]

end IAF
